import Mathlib

/-!
Verification of the natural-language specification of the `ytautomation`
repository against its code.

The repository is a linear video-production pipeline:
- `main.py` — the plan orchestrator: loads or regenerates `content_plan.json`,
  produces pending lessons one batch at a time, reconciles upload results back
  into the plan by case-insensitive title matching, and persists the plan in a
  `finally` block after every lesson attempt;
- `src/generator.py` — curriculum/lesson generation via a generative-language
  API (fence-stripped JSON parsing with no schema validation), greedy word-wrap
  slide rasterization, and video assembly with an input-validation guard;
- `src/uploader.py` — an OAuth-authenticated video upload with a best-effort
  thumbnail attach;
- `content_new.py` — a standalone YouTube search utility normalizing yt-dlp
  results.

All external effects (generative model, json.loads, media encoding, HTTP,
upload API, yt-dlp extraction) are modelled as explicit oracle parameters:
each Lean function below is the repository function with its external calls
abstracted into arguments, and all repository-side logic (control flow,
string manipulation, validation, list processing) translated faithfully.
-/

/-! ## JSON values

Python-level JSON documents (`content_plan.json`, model responses) are
modelled by a small JSON value type.  Numbers are integers: no claim depends
on float-valued JSON. -/

inductive JValue where
  | null : JValue
  | bool (b : Bool) : JValue
  | num (n : Int) : JValue
  | str (s : String) : JValue
  | arr (xs : List JValue) : JValue
  | obj (fields : List (String × JValue)) : JValue

/-- Lookup of a key in a JSON object's field list (Python `dict.get`: first
binding wins; Python dicts have unique keys). -/
def jLookup : List (String × JValue) → String → Option JValue
  | [], _ => none
  | (k, v) :: rest, key => if k = key then some v else jLookup rest key

/-- Python truthiness of a JSON value (`not plan.get("lessons")`): `None`,
`False`, `0`, `""`, `[]` and `{}` are falsy. -/
def jTruthy : JValue → Bool
  | JValue.null => false
  | JValue.bool b => b
  | JValue.num n => n != 0
  | JValue.str s => s != ""
  | JValue.arr xs => !xs.isEmpty
  | JValue.obj fs => !fs.isEmpty

/-! ## main.get_content_plan (main.py lines 26-46)

`fileExists` models `CONTENT_PLAN_FILE.exists()`; `parsed` is the outcome of
`json.load` on the existing file (`none` = the file is malformed JSON and
`json.load` raised); `generated` is the plan returned by
`generate_curriculum()` when the orchestrator regenerates.  Every exception of
the load/validate step is caught by `except Exception` and answered by
regeneration, so the Lean function is total.  A non-object document makes
`plan.get` raise `AttributeError` (caught); a missing/falsy `lessons` value or
a non-list `lessons` value raises `ValueError` (caught). -/

def get_content_plan (fileExists : Bool) (parsed : Option JValue) (generated : JValue) : JValue :=
  if !fileExists then generated
  else
    match parsed with
    | none => generated
    | some plan =>
      match plan with
      | JValue.obj fields =>
        match jLookup fields "lessons" with
        | none => generated
        | some lv =>
          if !(jTruthy lv) then generated
          else
            match lv with
            | JValue.arr _ => plan
            | _ => generated
      | _ => generated

/-- Document shapes named by claim C7: malformed JSON (`none`), a document
without a `lessons` field, or one whose `lessons` value is not a list.  A
non-object top-level document lacks the `lessons` field. -/
def planShapeBad (parsed : Option JValue) : Bool :=
  match parsed with
  | none => true
  | some (JValue.obj fields) =>
    match jLookup fields "lessons" with
    | some (JValue.arr _) => false
    | some _ => true
    | none => true
  | some _ => true

/-! ## generator.generate_curriculum (generator.py lines 77-109) -/

def YOUR_NAME : String := "Chaitanya"

/-- History block prepended to the curriculum prompt when `previous_titles`
is passed and truthy (generator.py lines 85-88). -/
def curriculumHistory (previous_titles : Option (List String)) : String :=
  match previous_titles with
  | none => ""
  | some ts =>
    if ts.isEmpty then ""
    else
      "The following lessons have already been created:\n"
      ++ String.intercalate "\n" ((ts.enum).map (fun p => toString (p.1 + 1) ++ ". " ++ p.2))
      ++ "\n\nPlease continue from where this series left off.\n"

/-- The curriculum prompt (generator.py lines 90-101).  The surrounding
indentation whitespace of the Python triple-quoted f-string is immaterial to
every claim and is not reproduced. -/
def curriculumPrompt (previous_titles : Option (List String)) : String :=
  "You are an expert AI educator. Generate a curriculum for a YouTube series called 'AI for Developers by "
  ++ YOUR_NAME ++ "'.\n"
  ++ curriculumHistory previous_titles
  ++ "The style must be: 'Assume the viewer is a beginner or non-technical person starting their journey into AI as a developer. Use simple real-world analogies, relatable examples, and then connect to technical concepts.'\n"
  ++ "The curriculum must guide a developer from absolute beginner to advanced AI, covering foundations like Generative AI, LLMs, Vector Databases, and Agentic AI... then continue into deep AI topics like Reinforcement Learning, Transformers internals, multi-agent systems, tool use, LangGraph, AI architecture, and more.\n"
  ++ "Respond with ONLY a valid JSON object. The object must contain a key \"lessons\" which is a list of 20 lesson objects.\n"
  ++ "Each lesson object must have these keys: \"chapter\", \"part\", \"title\", \"status\" (defaulted to \"pending\"), and \"youtube_id\" (defaulted to null)."

/-- Python `str.strip()`: drop leading and trailing whitespace.  Implemented
structurally over the character list so that proofs can evaluate it. -/
def pyStrip (s : String) : String :=
  String.mk (((s.data.dropWhile Char.isWhitespace).reverse.dropWhile Char.isWhitespace).reverse)

/-- Python `str.lower()` (ASCII case mapping, which covers every string the
repository compares). -/
def pyLower (s : String) : String := String.mk (s.data.map Char.toLower)

/-- Python `str.replace(pat, rep)`: replace non-overlapping occurrences left
to right.  The fuel argument (instantiated with the string length) makes the
recursion structural; each step consumes at least one character, so the fuel
never runs out for a non-empty pattern. -/
def replaceFuel (pat rep : List Char) : Nat → List Char → List Char
  | _, [] => []
  | 0, cs => cs
  | fuel + 1, c :: cs =>
    if pat.isPrefixOf (c :: cs) then rep ++ replaceFuel pat rep fuel ((c :: cs).drop pat.length)
    else c :: replaceFuel pat rep fuel cs

/-- Python `str.replace` on strings. -/
def pyReplace (s pat rep : String) : String :=
  String.mk (replaceFuel pat.data rep.data s.data.length s.data)

/-- Code-fence stripping of the model response (generator.py line 103):
`response.text.strip().replace("```json", "").replace("```", "")`. -/
def stripCodeFences (text : String) : String :=
  pyReplace (pyReplace (pyStrip text) "```json" "") "```" ""

/-- The curriculum generator.  `api_key` models `os.environ["GOOGLE_API_KEY"]`
(a missing key raises `KeyError`, caught and re-raised by the function's
`except`); `model` is the external generative model (prompt in, response text
out, may raise); `loads` is Python's `json.loads` (returns `none` when it
raises on invalid JSON, and the raise is caught and re-raised).  The parsed
document is returned unchanged: the function performs no schema validation. -/
def generate_curriculum (previous_titles : Option (List String)) (api_key : Option String)
    (model : String → Except Unit String) (loads : String → Option JValue) : Except Unit JValue :=
  match api_key with
  | none => Except.error ()
  | some _ =>
    match model (curriculumPrompt previous_titles) with
    | Except.error e => Except.error e
    | Except.ok text =>
      match loads (stripCodeFences text) with
      | none => Except.error ()
      | some v => Except.ok v

/-- Whether an optional JSON value is the string `s`. -/
def isJStr (s : String) : Option JValue → Bool
  | some (JValue.str t) => t == s
  | _ => false

/-- Whether an optional JSON value is JSON `null`. -/
def isJNull : Option JValue → Bool
  | some JValue.null => true
  | _ => false

/-- A lesson object that is pending with a null `youtube_id`. -/
def isPendingNullLesson (v : JValue) : Bool :=
  match v with
  | JValue.obj fs => isJStr "pending" (jLookup fs "status") && isJNull (jLookup fs "youtube_id")
  | _ => false

/-- The well-formedness claimed of a freshly generated curriculum: a JSON
object whose `lessons` field is a list of exactly 20 lessons, each with
status `"pending"` and `youtube_id` null. -/
def is20PendingPlan (v : JValue) : Bool :=
  match v with
  | JValue.obj fs =>
    match jLookup fs "lessons" with
    | some (JValue.arr xs) => xs.length == 20 && xs.all isPendingNullLesson
    | _ => false
  | _ => false

/-- A concrete well-formed generated lesson, for evaluating the definitions. -/
def wfLesson (i : Nat) : JValue :=
  JValue.obj [("chapter", JValue.num (Int.ofNat (i / 2 + 1))),
              ("part", JValue.num (Int.ofNat (i % 2 + 1))),
              ("title", JValue.str ("Lesson " ++ toString (i + 1))),
              ("status", JValue.str "pending"),
              ("youtube_id", JValue.null)]

/-- A concrete well-formed 20-lesson curriculum document. -/
def wfPlan : JValue := JValue.obj [("lessons", JValue.arr ((List.range 20).map wfLesson))]

/-- A concrete `json.loads` behaviour: on the exact text
`{"lessons": []}` it returns the corresponding document (as Python's
`json.loads` does); elsewhere it fails. -/
def cexLoads : String → Option JValue :=
  fun s => if s = "\x7b\"lessons\": []\x7d" then some (JValue.obj [("lessons", JValue.arr [])]) else none

/-! ## The orchestrator's plan state (main.py lines 167-210)

Lessons as persisted in `content_plan.json`.  The orchestrator reads
`title`, `status` and `youtube_id`; `chapter` and `part` only feed the
scratch-file naming inside `produce_lesson_videos`, which is abstracted as
the per-lesson production oracle. -/

structure Lesson where
  chapter : Int
  part : Int
  title : String
  status : String
  youtube_id : Option String
deriving DecidableEq

/-- Title normalization used by the reconciliation loop (main.py line 195):
`title.strip().lower()`. -/
def normTitle (s : String) : String := pyLower (pyStrip s)

/-- The reconciliation loop (main.py lines 194-199): walk the plan, mark the
first lesson whose normalized title equals the produced lesson's normalized
title as complete with the returned video id, and stop (`break`). -/
def markComplete : List Lesson → String → String → List Lesson
  | [], _, _ => []
  | l :: rest, t, vid =>
    if normTitle l.title == normTitle t then
      { l with status := "complete", youtube_id := some vid } :: rest
    else
      l :: markComplete rest t vid

/-- Outcome of `produce_lesson_videos` for one lesson: `Except.error` when any
step (content generation, speech synthesis, visuals, video assembly, upload)
raised; `Except.ok none` when the function returned `None` (upload returned no
id); `Except.ok (some vid)` when it returned an identifier. -/
abbrev ProduceOutcome := Except Unit (Option String)

/-- One iteration of the per-lesson loop (main.py lines 190-210): on a truthy
returned id, reconcile it into the plan; on a falsy id or a raised exception,
leave the plan unchanged.  The `finally` block persists the resulting plan to
disk after every iteration, so the returned value is exactly the content of
`content_plan.json` after the iteration. -/
def runStep (plan : List Lesson) (item : Lesson × ProduceOutcome) : List Lesson :=
  match item.2 with
  | Except.ok (some vid) => if vid == "" then plan else markComplete plan item.1.title vid
  | Except.ok none => plan
  | Except.error _ => plan

/-- The whole per-lesson loop over one batch (`pending[:LESSONS_PER_RUN]`),
each item paired with its production outcome. -/
def runBatch (plan : List Lesson) (batch : List (Lesson × ProduceOutcome)) : List Lesson :=
  batch.foldl runStep plan

def LESSONS_PER_RUN : Nat := 1

/-- The body of `main()` after the plan is loaded (main.py lines 176-210):
select pending lessons; if none, switch to the regenerated plan (already
persisted by `update_content_plan`) and re-select; then run the batch of the
first `k` pending lessons.  `regen` is the plan returned by
`generate_curriculum(previous_titles=...)`, `outcomes` the production oracle
for the batch, `k` the configured `LESSONS_PER_RUN`.  The returned plan is
the persisted content of `content_plan.json` when the run exits. -/
def mainRun (plan0 regen : List Lesson) (outcomes : List ProduceOutcome) (k : Nat) : List Lesson :=
  let pending := plan0.filter (fun l => l.status == "pending")
  if pending.isEmpty then
    let pending1 := regen.filter (fun l => l.status == "pending")
    if pending1.isEmpty then regen
    else runBatch regen ((pending1.take k).zip outcomes)
  else runBatch plan0 ((pending.take k).zip outcomes)

/-- The invariant of claim C1 for a single lesson: status is `pending` or
`complete`, and `youtube_id` is non-null iff status is `complete`. -/
def lessonInv (l : Lesson) : Bool :=
  (l.status == "pending" || l.status == "complete")
  && (l.youtube_id.isSome == (l.status == "complete"))

/-- Whether a batch item would mutate a lesson titled `t`: its production
succeeded with a truthy id and its lesson's normalized title equals the
normalized `t`. -/
def touchesB (m : Lesson × ProduceOutcome) (t : String) : Bool :=
  (match m.2 with
   | Except.ok (some v) => v != ""
   | _ => false)
  && (normTitle m.1.title == normTitle t)

/-- A persisted lesson violating the C1 invariant (pending but with a
non-null video id).  `get_content_plan` accepts any document with a non-empty
`lessons` list, so such a lesson reaches the orchestrator. -/
def c1BadLesson : Lesson :=
  { chapter := 1, part := 1, title := "Intro to Vectors", status := "pending", youtube_id := some "zz" }

/-- A well-formed pending lesson, for evaluating the run definitions. -/
def c2LessonA : Lesson :=
  { chapter := 1, part := 1, title := "Alpha", status := "pending", youtube_id := none }

/-- A second well-formed pending lesson with an unrelated title. -/
def c2LessonB : Lesson :=
  { chapter := 1, part := 2, title := "Beta", status := "pending", youtube_id := none }

/-- First lesson of the duplicate-title evaluation plan. -/
def c6LessonX : Lesson :=
  { chapter := 1, part := 1, title := "Intro to Vectors", status := "pending", youtube_id := none }

/-- Second lesson whose title normalizes to the same string as
`c6LessonX`'s (case and surrounding whitespace differ). -/
def c6LessonY : Lesson :=
  { chapter := 1, part := 2, title := "  intro to VECTORS ", status := "pending", youtube_id := none }

/-- Third lesson with an unrelated title. -/
def c6LessonZ : Lesson :=
  { chapter := 2, part := 1, title := "Other", status := "pending", youtube_id := none }

/-! ## generator.generate_visuals: greedy word-wrap (generator.py lines 290-300)

The body-content wrap loop.  `wfn` abstracts the rendered-width measurement
`draw.textbbox((0, 0), line, font=content_font)[2]` (an external font
rasterizer); `limit` abstracts `width * 0.85` (widths are integers, so the
strict float comparison coincides with strict Nat comparison against 1632 for
the 1920-wide canvas).  Lines are modelled as their word lists; the string the
code accumulates is their single-space join, which `joinWords` renders: the
words come from `str.split()` and therefore contain no whitespace, making
`f"{current_line} {word}".strip()` equal to the join of the extended word
list. -/

/-- Helper for Python `str.split()`: walk the characters accumulating the
current word (reversed); whitespace finishes a word, and empty pieces are
dropped. -/
def splitWsAux : List Char → List Char → List String
  | [], acc => if acc.isEmpty then [] else [String.mk acc.reverse]
  | c :: cs, acc =>
    if c.isWhitespace then
      if acc.isEmpty then splitWsAux cs [] else String.mk acc.reverse :: splitWsAux cs []
    else splitWsAux cs (c :: acc)

/-- Python `str.split()` with no argument: split on whitespace runs, dropping
empty pieces. -/
def pySplit (s : String) : List String := splitWsAux s.data []

/-- Single-space join of a line's words, i.e. the `current_line` string the
source accumulates. -/
def joinWords : List String → String
  | [] => ""
  | [w] => w
  | w :: ws => w ++ " " ++ joinWords ws

/-- The greedy wrap loop (generator.py lines 293-300): extend the current line
while the rendered width of the extended line stays under the limit, else
emit the current line and start a new one with the overflowing word; finally
emit the last current line. -/
def wrapLoop (wfn : String → Nat) (limit : Nat) (current : List String) : List String → List (List String)
  | [] => [current]
  | w :: ws =>
    if wfn (joinWords (current ++ [w])) < limit then wrapLoop wfn limit (current ++ [w]) ws
    else current :: wrapLoop wfn limit [w] ws

/-- The wrap of a slide's content string (generator.py lines 290-300). -/
def wrapContent (wfn : String → Nat) (limit : Nat) (content : String) : List (List String) :=
  wrapLoop wfn limit [] (pySplit content)

/-! ## generator.create_video (generator.py lines 327-376)

`media` abstracts the moviepy clip construction, concatenation, background
music mixing and encoding; the guard at lines 331-332 runs before any of it.
The result pairs the call's outcome with the list of output files written
(`write_videofile` at line 363 is the only file write). -/

def create_video (slide_paths audio_paths : List String) (output_path : String)
    (media : Except String Unit) : Except String Unit × List String :=
  if slide_paths.isEmpty || audio_paths.isEmpty || slide_paths.length != audio_paths.length then
    (Except.error "Mismatch between slides and audio clips, or no slides provided.", [])
  else
    match media with
    | Except.error e => (Except.error e, [])
    | Except.ok _ => (Except.ok (), [output_path])

/-! ## generator.generate_visuals: background and orientation (generator.py lines 219-240)

Images are modelled as the tree of PIL operations applied to them, with their
pixel size computable from the tree; `ROTATE_270` swaps width and height. -/

inductive Img where
  | fetched (w h : Nat) : Img
  | solid (w h : Nat) : Img
  | resize (i : Img) (w h : Nat) : Img
  | blur (i : Img) (r : Nat) : Img
  | composite (a b : Img) : Img
  | rot270 (i : Img) : Img
deriving DecidableEq

/-- Pixel size `(width, height)` of a composed image. -/
def Img.size : Img → Nat × Nat
  | Img.fetched w h => (w, h)
  | Img.solid w h => (w, h)
  | Img.resize _ w h => (w, h)
  | Img.blur i _ => i.size
  | Img.composite a _ => a.size
  | Img.rot270 i => ((i.size).2, (i.size).1)

/-- Canvas size selection (generator.py line 224):
`(1920, 1080) if video_type == 'long' else (1080, 1920)`. -/
def visualsDims (video_type : String) : Nat × Nat :=
  if video_type == "long" then (1920, 1080) else (1080, 1920)

/-- Background composition (generator.py lines 226-232): the fetched Pexels
image or a solid fallback, resized to the canvas, blurred, and
alpha-composited with a darkening layer of the same size. -/
def composedBg (video_type : String) (fetchedImg : Option Img) : Img :=
  let wh := visualsDims video_type
  let bg := match fetchedImg with
    | some im => im
    | none => Img.solid wh.1 wh.2
  Img.composite (Img.blur (Img.resize bg wh.1 wh.2) 5) (Img.solid wh.1 wh.2)

/-- Orientation correction (generator.py lines 234-238): a thumbnail for a
`'long'` video whose background is portrait (height exceeds width) is rotated
270 degrees and resized to 1920x1080; otherwise the image is unchanged. -/
def orientThumb (thumbnail_title : Option String) (video_type : String) (img : Img) : Img :=
  if thumbnail_title.isSome ∧ video_type == "long" ∧ (img.size).1 < (img.size).2 then
    Img.resize (Img.rot270 img) 1920 1080
  else img

/-- The background an invocation of `generate_visuals` draws onto
(generator.py lines 224-240): composition followed by orientation
correction. -/
def visualsBg (video_type : String) (thumbnail_title : Option String) (fetchedImg : Option Img) : Img :=
  orientThumb thumbnail_title video_type (composedBg video_type fetchedImg)

/-! ## uploader.upload_to_youtube (uploader.py lines 58-113)

`auth` abstracts `get_authenticated_service()` (may raise); `insert` the
resumable video insert loop, yielding `response.get('id')` on success;
`thumbExists` is `os.path.exists`; `thumbSet` the `thumbnails().set` call.
The thumbnail attach sits in its own `try`/`except` that catches and logs any
failure, so its outcome never affects the returned value; the outer `except`
re-raises everything else. -/

def upload_to_youtube (auth : Except Unit Unit) (insert : Except Unit (Option String))
    (thumbnail_path : Option String) (thumbExists : String → Bool)
    (thumbSet : Except Unit Unit) : Except Unit (Option String) :=
  match auth with
  | Except.error e => Except.error e
  | Except.ok _ =>
    match insert with
    | Except.error e => Except.error e
    | Except.ok vid =>
      match thumbnail_path with
      | some p =>
        if p != "" && thumbExists p then
          match thumbSet with
          | Except.ok _ => Except.ok vid
          | Except.error _ => Except.ok vid
        else Except.ok vid
      | none => Except.ok vid

/-! ## content_new.search_youtube (content_new.py lines 25-91)

A yt-dlp search entry as the fields the function reads from the result dict,
typed (yt-dlp emits strings for ids/titles/channels and numbers for counts
and durations). -/

structure YtEntry where
  id : Option String
  title : Option String
  channel : Option String
  uploader : Option String
  view_count : Option Int
  duration : Option Nat
deriving DecidableEq

/-- A normalized search record as appended at content_new.py lines 73-81. -/
structure YtRecord where
  id : Option String
  title : Option String
  link : Option String
  channel : Option String
  viewCount : Option String
  duration : Option String
  publishedTime : Option String
deriving DecidableEq

/-- Python truthiness of an optional string (`if video_id`): `None` and `""`
are falsy. -/
def optStrTruthy : Option String → Bool
  | some s => s != ""
  | none => false

/-- Digit grouping for Python's `f"{n:,}"` format: `k` counts digits already
emitted, walking the digit list least-significant first; a comma precedes
every digit whose position from the right is a positive multiple of 3. -/
def commaRev : List Char → Nat → List Char
  | [], _ => []
  | c :: cs, k =>
    if k % 3 == 0 && k != 0 then ',' :: c :: commaRev cs (k + 1)
    else c :: commaRev cs (k + 1)

/-- Python `f"{n:,}"` for an integer. -/
def commaGroup (n : Int) : String :=
  let grouped := String.mk ((commaRev ((toString n.natAbs).data.reverse) 0).reverse)
  (if n < 0 then "-" else "") ++ grouped

/-- Duration formatting (content_new.py lines 68-69):
`divmod(int(duration), 60)` rendered as `f"{mins}:{secs:02d}"`. -/
def fmtDuration (d : Nat) : String :=
  toString (d / 60) ++ ":" ++ (if d % 60 < 10 then "0" ++ toString (d % 60) else toString (d % 60))

/-- Normalization of one entry (content_new.py lines 50-81): the link is
built only for a truthy id; the channel falls back to the uploader via
Python `or`; view count and duration are formatted when present/truthy. -/
def normalizeEntry (v : YtEntry) : YtRecord :=
  { id := v.id
  , title := v.title
  , link := if optStrTruthy v.id then some ("https://www.youtube.com/watch?v=" ++ v.id.getD "") else none
  , channel := if optStrTruthy v.channel then v.channel else v.uploader
  , viewCount := v.view_count.map (fun n => commaGroup n ++ " views")
  , duration :=
      match v.duration with
      | some d => if d != 0 then some (fmtDuration d) else none
      | none => none
  , publishedTime := none }

/-- Outcome of `ydl.extract_info(search_query, download=False)`: the call
raised; returned a falsy result; returned a dict without an `entries` key; or
returned entries (each possibly falsy, modelled as `Option`). -/
inductive ExtractOutcome where
  | raised : ExtractOutcome
  | noResult : ExtractOutcome
  | noEntriesKey : ExtractOutcome
  | entries (es : List (Option YtEntry)) : ExtractOutcome

/-- The search function (content_new.py lines 25-91): any raise inside the
`try` is caught and answered with `[]`; falsy results, missing `entries`, and
falsy videos are skipped; records without a truthy id are filtered out at
line 84. -/
def search_youtube (x : ExtractOutcome) : List YtRecord :=
  match x with
  | ExtractOutcome.raised => []
  | ExtractOutcome.noResult => []
  | ExtractOutcome.noEntriesKey => []
  | ExtractOutcome.entries es =>
    ((es.filterMap id).map normalizeEntry).filter (fun n => optStrTruthy n.id)

/-- A concrete search entry for evaluating the definitions. -/
def c10Entry : YtEntry :=
  { id := some "abc", title := some "A video", channel := none, uploader := none,
    view_count := none, duration := none }

/-! ## Theorems -/

/-- Claim C7: given an existing plan file whose contents are malformed JSON or
lack the `lessons` field (or whose `lessons` field is not a list),
`get_content_plan` discards it and returns the regenerated plan, without
raising from the load step (the Lean function is total: every load/validate
exception is caught). -/
theorem c7_bad_plan_regenerated (parsed : Option JValue) (generated : JValue)
    (h : planShapeBad parsed = true) :
    get_content_plan true parsed generated = generated := by
  unfold get_content_plan planShapeBad at *
  match parsed with
  | none => rfl
  | some (JValue.obj fields) =>
    simp only at h ⊢
    match hl : jLookup fields "lessons" with
    | none => rfl
    | some lv =>
      rw [hl] at h
      match lv with
      | JValue.null => simp [jTruthy]
      | JValue.bool b => cases b <;> simp [jTruthy]
      | JValue.num n => by_cases hn : n = 0 <;> simp [jTruthy, hn]
      | JValue.str s => by_cases hs : s = "" <;> simp [jTruthy, hs]
      | JValue.arr xs => simp at h
      | JValue.obj gs => cases gs <;> simp [jTruthy]
  | some JValue.null => rfl
  | some (JValue.bool b) => rfl
  | some (JValue.num n) => rfl
  | some (JValue.str s) => rfl
  | some (JValue.arr xs) => rfl

/-- Witness for C7: a plan file holding the object `{}` (no `lessons` field)
is discarded and the regenerated plan is returned. -/
theorem c7_bad_plan_regenerated_witness :
    planShapeBad (some (JValue.obj [])) = true
    ∧ get_content_plan true (some (JValue.obj [])) wfPlan = wfPlan :=
  ⟨rfl, c7_bad_plan_regenerated (some (JValue.obj [])) wfPlan rfl⟩

/-- Claim C5: `create_video` called with an empty slide list, an empty audio
list, or lists of unequal length raises the invalid-input `ValueError` and
writes no output file, whatever the abstracted media pipeline would do. -/
theorem c5_create_video_rejects (slide_paths audio_paths : List String) (output_path : String)
    (media : Except String Unit)
    (h : slide_paths = [] ∨ audio_paths = [] ∨ slide_paths.length ≠ audio_paths.length) :
    create_video slide_paths audio_paths output_path media
      = (Except.error "Mismatch between slides and audio clips, or no slides provided.", []) := by
  unfold create_video
  rcases h with h | h | h
  · subst h; simp
  · subst h; simp
  · simp [List.isEmpty_iff, h]

/-- Witness for C5: three slides against two audio clips (the spec's example)
is rejected with no file written. -/
theorem c5_create_video_rejects_witness :
    (["s1.png", "s2.png", "s3.png"] : List String) = []
      ∨ (["a1.wav", "a2.wav"] : List String) = []
      ∨ (["s1.png", "s2.png", "s3.png"] : List String).length ≠ (["a1.wav", "a2.wav"] : List String).length
    ∧ create_video ["s1.png", "s2.png", "s3.png"] ["a1.wav", "a2.wav"] "out.mp4" (Except.ok ())
      = (Except.error "Mismatch between slides and audio clips, or no slides provided.", []) :=
  Or.inr (Or.inr ⟨by decide,
    c5_create_video_rejects ["s1.png", "s2.png", "s3.png"] ["a1.wav", "a2.wav"] "out.mp4"
      (Except.ok ()) (Or.inr (Or.inr (by decide)))⟩)

/-- Claim C8: in `generate_visuals`, a thumbnail requested for a landscape
(`'long'`) video whose composed background image is portrait (height greater
than width) is rotated 270 degrees and then resized to 1920x1080 before any
drawing happens. -/
theorem c8_portrait_thumb_rotated (t : String) (img : Img) (h : (img.size).1 < (img.size).2) :
    orientThumb (some t) "long" img = Img.resize (Img.rot270 img) 1920 1080 := by
  unfold orientThumb
  simp [h]

/-- Witness for C8: a 1080x1920 portrait background for a long-video
thumbnail is rotated and resized. -/
theorem c8_portrait_thumb_rotated_witness :
    ((Img.solid 1080 1920).size).1 < ((Img.solid 1080 1920).size).2
    ∧ orientThumb (some "Quick Tip") "long" (Img.solid 1080 1920)
      = Img.resize (Img.rot270 (Img.solid 1080 1920)) 1920 1080 :=
  ⟨by decide, c8_portrait_thumb_rotated "Quick Tip" (Img.solid 1080 1920) (by decide)⟩

/-- Claim C9: in `upload_to_youtube`, when the video insert succeeds and a
thumbnail path is given and exists, a failure of the thumbnail attach is
caught, and the function still returns the video identifier from the
successful video upload. -/
theorem c9_thumbnail_best_effort (vid : Option String) (p : String) (hp : p ≠ "")
    (thumbExists : String → Bool) (hex : thumbExists p = true) :
    upload_to_youtube (Except.ok ()) (Except.ok vid) (some p) thumbExists (Except.error ())
      = Except.ok vid := by
  unfold upload_to_youtube
  simp [hex, hp]

/-- Witness for C9: thumbnail `thumbnail.png` exists, its attach raises, and
the call still returns the id `abc123` from the video insert. -/
theorem c9_thumbnail_best_effort_witness :
    ("thumbnail.png" : String) ≠ ""
    ∧ (fun _ : String => true) "thumbnail.png" = true
    ∧ upload_to_youtube (Except.ok ()) (Except.ok (some "abc123")) (some "thumbnail.png")
        (fun _ => true) (Except.error ()) = Except.ok (some "abc123") :=
  ⟨by decide, rfl,
    c9_thumbnail_best_effort (some "abc123") "thumbnail.png" (by decide) (fun _ => true) rfl⟩

/-- Claim C10: for every extraction outcome, `search_youtube` is total (every
raise is caught and answered with `[]`), and every record it returns has a
truthy (non-null, non-empty) id and a link equal to
`https://www.youtube.com/watch?v=` followed by that id. -/
theorem c10_search_records (x : ExtractOutcome) (r : YtRecord) (hr : r ∈ search_youtube x) :
    optStrTruthy r.id = true
    ∧ r.link = r.id.map (fun s => "https://www.youtube.com/watch?v=" ++ s) := by
  cases x with
  | raised => simp [search_youtube] at hr
  | noResult => simp [search_youtube] at hr
  | noEntriesKey => simp [search_youtube] at hr
  | entries es =>
    unfold search_youtube at hr
    obtain ⟨hmem, htr⟩ := List.mem_filter.mp hr
    obtain ⟨e, _, heq⟩ := List.mem_map.mp hmem
    subst heq
    refine ⟨htr, ?_⟩
    simp only [normalizeEntry] at htr ⊢
    match hid : e.id with
    | none => rw [hid] at htr; simp [optStrTruthy] at htr
    | some s =>
      rw [hid] at htr
      simp [hid, htr]

/-- Witness for C10: a single entry with id `abc` yields one record whose
link is `https://www.youtube.com/watch?v=abc`. -/
theorem c10_search_records_witness :
    normalizeEntry c10Entry ∈ search_youtube (ExtractOutcome.entries [some c10Entry])
    ∧ (optStrTruthy (normalizeEntry c10Entry).id = true
       ∧ (normalizeEntry c10Entry).link
         = (normalizeEntry c10Entry).id.map (fun s => "https://www.youtube.com/watch?v=" ++ s)) :=
  ⟨by decide, c10_search_records (ExtractOutcome.entries [some c10Entry]) (normalizeEntry c10Entry) (by decide)⟩

/-- Flattening the wrapped lines recovers the pending word list: the loop
never drops or duplicates a word. -/
theorem wrapLoop_flatten (wfn : String → Nat) (limit : Nat) :
    ∀ (ws current : List String), (wrapLoop wfn limit current ws).flatten = current ++ ws := by
  intro ws
  induction ws with
  | nil => intro current; simp [wrapLoop]
  | cons w ws ih =>
    intro current
    unfold wrapLoop
    split
    · rw [ih (current ++ [w])]; simp
    · simp [ih [w]]

/-- Every line the loop emits is a single word or renders strictly below the
limit, provided the incoming current line does. -/
theorem wrapLoop_lines (wfn : String → Nat) (limit : Nat) :
    ∀ (ws current : List String),
      (current.length = 1 ∨ wfn (joinWords current) < limit) →
      ∀ l ∈ wrapLoop wfn limit current ws, l.length = 1 ∨ wfn (joinWords l) < limit := by
  intro ws
  induction ws with
  | nil =>
    intro current hc l hl
    simp [wrapLoop] at hl
    subst hl
    exact hc
  | cons w ws ih =>
    intro current hc l hl
    unfold wrapLoop at hl
    split at hl
    case isTrue hacc => exact ih (current ++ [w]) (Or.inr hacc) l hl
    case isFalse =>
      rcases List.mem_cons.mp hl with h | h
      · subst h; exact hc
      · exact ih [w] (Or.inl rfl) l h

/-- Claim C4: for any input string and any rendered-width function and limit
(with the empty line rendering below the limit, as any renderer does for a
positive limit), the greedy wrap of `generate_visuals` produces lines whose
words, re-joined, reproduce the original word sequence exactly, and every
line that renders at or above the limit is a single (unsplittable) word. -/
theorem c4_wrap_sound (wfn : String → Nat) (limit : Nat) (content : String)
    (h0 : wfn "" < limit) :
    (wrapContent wfn limit content).flatten = pySplit content
    ∧ ∀ l ∈ wrapContent wfn limit content, l.length = 1 ∨ wfn (joinWords l) < limit := by
  constructor
  · rw [wrapContent, wrapLoop_flatten]; rfl
  · exact wrapLoop_lines wfn limit (pySplit content) [] (Or.inr (by simpa [joinWords] using h0))

/-- Witness for C4: wrapping `ab cd ef` at limit 6 under the length measure
gives lines `[ab cd]`, `[ef]`; the join is the original word list and the
line `[ab, cd]` renders below the limit. -/
theorem c4_wrap_sound_witness :
    String.length "" < 6
    ∧ (wrapContent String.length 6 "ab cd ef").flatten = pySplit "ab cd ef"
    ∧ ((["ab", "cd"] : List String).length = 1 ∨ String.length (joinWords ["ab", "cd"]) < 6) :=
  ⟨by decide, (c4_wrap_sound String.length 6 "ab cd ef" (by decide)).1,
    (c4_wrap_sound String.length 6 "ab cd ef" (by decide)).2 ["ab", "cd"] (by decide)⟩

/-- The reconciliation loop transforms exactly the first lesson whose
normalized title matches: at the first matching index the entry is marked
complete with the id (both sides are `none` when no title matches). -/
theorem markComplete_findIdx_get (p : List Lesson) (t vid : String) :
    (markComplete p t vid)[p.findIdx (fun x => normTitle x.title == normTitle t)]?
      = (p[p.findIdx (fun x => normTitle x.title == normTitle t)]?).map
          (fun x => { x with status := "complete", youtube_id := some vid }) := by
  induction p with
  | nil => rfl
  | cons a rest ih =>
    simp only [markComplete, List.findIdx_cons]
    cases hc : (normTitle a.title == normTitle t) with
    | true => simp [hc]
    | false => simpa [hc] using ih

/-- Every position other than the first matching one is untouched by the
reconciliation loop. -/
theorem markComplete_get_ne_idx (p : List Lesson) (t vid : String) (i : Nat)
    (h : i ≠ p.findIdx (fun x => normTitle x.title == normTitle t)) :
    (markComplete p t vid)[i]? = p[i]? := by
  induction p generalizing i with
  | nil => rfl
  | cons a rest ih =>
    simp only [markComplete]
    rw [List.findIdx_cons] at h
    cases hc : (normTitle a.title == normTitle t) with
    | true =>
      rw [hc] at h
      simp only [cond_true] at h
      cases i with
      | zero => exact absurd rfl h
      | succ k => simp [hc]
    | false =>
      rw [hc] at h
      simp only [cond_false] at h
      cases i with
      | zero => simp [hc]
      | succ k =>
        simp only [hc, if_neg, Bool.false_eq_true, not_false_eq_true, List.getElem?_cons_succ]
        exact ih k (fun he => h (by rw [he]))

/-- A lesson whose normalized title differs from the produced title is
returned unchanged by the reconciliation loop. -/
theorem markComplete_get_keep (p : List Lesson) (t vid : String) (i : Nat) (lesson : Lesson)
    (hi : p[i]? = some lesson) (h : (normTitle lesson.title == normTitle t) = false) :
    (markComplete p t vid)[i]? = some lesson := by
  induction p generalizing i with
  | nil => simp at hi
  | cons a rest ih =>
    simp only [markComplete]
    cases hc : (normTitle a.title == normTitle t) with
    | true =>
      cases i with
      | zero =>
        have ha : a = lesson := by simpa using hi
        rw [← ha] at h
        exact absurd hc (by simp [h])
      | succ k => simpa [hc] using hi
    | false =>
      cases i with
      | zero => simpa [hc] using hi
      | succ k =>
        simp only [hc, Bool.false_eq_true, if_neg, not_false_eq_true, List.getElem?_cons_succ]
        simp only [List.getElem?_cons_succ] at hi
        exact ih k hi

/-- A lesson marked complete with an id satisfies the C1 invariant, and the
loop keeps everyone else, so the invariant survives reconciliation. -/
theorem markComplete_all_inv (p : List Lesson) (t vid : String)
    (h : p.all lessonInv = true) : (markComplete p t vid).all lessonInv = true := by
  induction p with
  | nil => rfl
  | cons a rest ih =>
    simp only [List.all_cons, Bool.and_eq_true] at h
    obtain ⟨ha, hrest⟩ := h
    simp only [markComplete]
    cases hc : (normTitle a.title == normTitle t) with
    | true =>
      simp only [hc, if_pos, List.all_cons, Bool.and_eq_true]
      refine ⟨?_, hrest⟩
      have e1 : (("complete" : String) == "pending") = false := by decide
      have e2 : (("complete" : String) == "complete") = true := by decide
      show ((("complete" : String) == "pending" || ("complete" : String) == "complete")
        && ((some vid).isSome == (("complete" : String) == "complete"))) = true
      rw [e1, e2]
      simp
    | false =>
      simp only [hc, Bool.false_eq_true, if_neg, not_false_eq_true, List.all_cons,
        Bool.and_eq_true]
      exact ⟨ha, ih hrest⟩

/-- One loop iteration preserves the C1 invariant of the whole plan. -/
theorem runStep_all_inv (plan : List Lesson) (item : Lesson × ProduceOutcome)
    (h : plan.all lessonInv = true) : (runStep plan item).all lessonInv = true := by
  obtain ⟨l, o⟩ := item
  match o with
  | Except.error e => exact h
  | Except.ok none => exact h
  | Except.ok (some vid) =>
    simp only [runStep]
    split
    · exact h
    · exact markComplete_all_inv plan l.title vid h

/-- A whole batch preserves the C1 invariant of the plan. -/
theorem runBatch_all_inv (batch : List (Lesson × ProduceOutcome)) :
    ∀ plan, plan.all lessonInv = true → (runBatch plan batch).all lessonInv = true := by
  induction batch with
  | nil => intro plan h; exact h
  | cons m rest ih =>
    intro plan h
    rw [runBatch, List.foldl_cons]
    exact ih (runStep plan m) (runStep_all_inv plan m h)

/-- An entry whose title no successful batch item targets survives the whole
batch unchanged. -/
theorem runBatch_get_keep (batch : List (Lesson × ProduceOutcome)) :
    ∀ (plan : List Lesson) (i : Nat) (lesson : Lesson),
      plan[i]? = some lesson →
      batch.all (fun m => !(touchesB m lesson.title)) = true →
      (runBatch plan batch)[i]? = some lesson := by
  induction batch with
  | nil => intro plan i lesson hi _; exact hi
  | cons m rest ih =>
    intro plan i lesson hi hall
    simp only [List.all_cons, Bool.and_eq_true] at hall
    obtain ⟨hm, hrest⟩ := hall
    rw [runBatch, List.foldl_cons]
    refine ih (runStep plan m) i lesson ?_ (by simpa [List.all_eq_true] using hrest)
    obtain ⟨l2, o⟩ := m
    match o with
    | Except.error e => exact hi
    | Except.ok none => exact hi
    | Except.ok (some vid) =>
      simp only [runStep]
      split
      · exact hi
      case isFalse hv =>
        have hm2 : vid = "" ∨ ¬ normTitle l2.title = normTitle lesson.title := by
          simpa [touchesB] using hm
        have hne : normTitle l2.title ≠ normTitle lesson.title := by
          rcases hm2 with h1 | h1
          · exact absurd h1 (by simpa using hv)
          · exact h1
        exact markComplete_get_keep plan l2.title vid i lesson hi
          (beq_eq_false_iff_ne.mpr (Ne.symm hne))

/-- Claim C1, counterexample: the claim as stated fails.  A persisted plan
holding a lesson with status `pending` and a non-null `youtube_id` is
accepted by the loader (its `lessons` list is non-empty), and a run whose
production attempt raises leaves it untouched, so the plan after the run
violates the invariant. -/
theorem c1_invariant_counterexample :
    (mainRun [c1BadLesson] [] [Except.error ()] LESSONS_PER_RUN).all lessonInv = false := by
  decide

/-- Claim C1, amended: if every lesson of the plan the run starts from and of
any regenerated plan has status in `{pending, complete}` with `youtube_id`
non-null iff complete, then every lesson after the run does too — the
orchestrator's own mutations preserve the invariant, but incoming plans are
not validated. -/
theorem c1_invariant_preserved (plan0 regen : List Lesson) (outcomes : List ProduceOutcome)
    (k : Nat) (h0 : plan0.all lessonInv = true) (h1 : regen.all lessonInv = true) :
    (mainRun plan0 regen outcomes k).all lessonInv = true := by
  simp only [mainRun]
  split
  · split
    · exact h1
    · exact runBatch_all_inv _ regen h1
  · exact runBatch_all_inv _ plan0 h0

/-- Witness for the amended C1: a run that marks the single pending lesson
complete preserves the invariant. -/
theorem c1_invariant_preserved_witness :
    ([c2LessonA] : List Lesson).all lessonInv = true
    ∧ ([] : List Lesson).all lessonInv = true
    ∧ (mainRun [c2LessonA] [] [Except.ok (some "abc123")] LESSONS_PER_RUN).all lessonInv = true :=
  ⟨by decide, by decide,
    c1_invariant_preserved [c2LessonA] [] [Except.ok (some "abc123")] LESSONS_PER_RUN
      (by decide) (by decide)⟩

/-- Claim C2: if production of a batch lesson raises, that iteration is a
no-op — the run does not abort, it continues with the remaining batch items
and its result is the persisted plan — and the raising lesson's entry (any
entry whose title no successful batch item targets) is unchanged: still
status `pending` with `youtube_id` null. -/
theorem c2_failed_lesson_left_pending (plan : List Lesson)
    (pre post : List (Lesson × ProduceOutcome)) (l : Lesson) (i : Nat) (lesson : Lesson)
    (hi : plan[i]? = some lesson)
    (hp : lesson.status = "pending") (hy : lesson.youtube_id = none)
    (hno : (pre ++ post).all (fun m => !(touchesB m lesson.title)) = true) :
    runBatch plan (pre ++ (l, Except.error ()) :: post) = runBatch plan (pre ++ post)
    ∧ (runBatch plan (pre ++ (l, Except.error ()) :: post))[i]? = some lesson := by
  have heq : runBatch plan (pre ++ (l, Except.error ()) :: post) = runBatch plan (pre ++ post) := by
    rw [runBatch, runBatch, List.foldl_append, List.foldl_append, List.foldl_cons]
    rfl
  refine ⟨heq, ?_⟩
  rw [heq]
  exact runBatch_get_keep (pre ++ post) plan i lesson hi hno

/-- Witness for C2: lesson `Alpha` raises, lesson `Beta` in the same batch
still gets produced and marked, and `Alpha`'s entry stays pending/null. -/
theorem c2_failed_lesson_left_pending_witness :
    ([c2LessonA, c2LessonB] : List Lesson)[0]? = some c2LessonA
    ∧ c2LessonA.status = "pending"
    ∧ c2LessonA.youtube_id = none
    ∧ (([] ++ [(c2LessonB, Except.ok (some "vid123"))])
        : List (Lesson × ProduceOutcome)).all (fun m => !(touchesB m c2LessonA.title)) = true
    ∧ (runBatch [c2LessonA, c2LessonB]
          ([] ++ (c2LessonA, Except.error ()) :: [(c2LessonB, Except.ok (some "vid123"))])
        = runBatch [c2LessonA, c2LessonB] ([] ++ [(c2LessonB, Except.ok (some "vid123"))])
       ∧ (runBatch [c2LessonA, c2LessonB]
            ([] ++ (c2LessonA, Except.error ()) :: [(c2LessonB, Except.ok (some "vid123"))]))[0]?
          = some c2LessonA) :=
  ⟨by decide, rfl, rfl, by decide,
    c2_failed_lesson_left_pending [c2LessonA, c2LessonB] []
      [(c2LessonB, Except.ok (some "vid123"))] c2LessonA 0 c2LessonA
      (by decide) rfl rfl (by decide)⟩

/-- Claim C6: on a successful production returning a truthy identifier, the
orchestrator's success step is exactly the reconciliation loop, which marks
the first lesson whose normalized (whitespace-stripped, lowercased) title
equals the produced lesson's as complete with that identifier, and returns
every other position unchanged; with duplicate titles the first match wins
silently. -/
theorem c6_first_title_match (plan : List Lesson) (l : Lesson) (vid : String) (hv : vid ≠ "") :
    runStep plan (l, Except.ok (some vid)) = markComplete plan l.title vid
    ∧ (markComplete plan l.title vid)[plan.findIdx (fun x => normTitle x.title == normTitle l.title)]?
        = (plan[plan.findIdx (fun x => normTitle x.title == normTitle l.title)]?).map
            (fun x => { x with status := "complete", youtube_id := some vid })
    ∧ ∀ i, i ≠ plan.findIdx (fun x => normTitle x.title == normTitle l.title) →
        (markComplete plan l.title vid)[i]? = plan[i]? := by
  refine ⟨?_, markComplete_findIdx_get plan l.title vid,
    fun i h => markComplete_get_ne_idx plan l.title vid i h⟩
  simp only [runStep]
  simp [hv]

/-- Witness for C6: producing the duplicate-titled lesson `Y` marks lesson
`X` (the first normalized-title match, index 0), while positions 1 and 2 are
unchanged. -/
theorem c6_first_title_match_witness :
    ("abc123" : String) ≠ ""
    ∧ runStep [c6LessonX, c6LessonY, c6LessonZ] (c6LessonY, Except.ok (some "abc123"))
        = markComplete [c6LessonX, c6LessonY, c6LessonZ] c6LessonY.title "abc123"
    ∧ (markComplete [c6LessonX, c6LessonY, c6LessonZ] c6LessonY.title "abc123")[
          ([c6LessonX, c6LessonY, c6LessonZ].findIdx
            (fun x => normTitle x.title == normTitle c6LessonY.title))]?
        = (([c6LessonX, c6LessonY, c6LessonZ] : List Lesson)[
            ([c6LessonX, c6LessonY, c6LessonZ].findIdx
              (fun x => normTitle x.title == normTitle c6LessonY.title))]?).map
            (fun x => { x with status := "complete", youtube_id := some "abc123" })
    ∧ (markComplete [c6LessonX, c6LessonY, c6LessonZ] c6LessonY.title "abc123")[1]?
        = ([c6LessonX, c6LessonY, c6LessonZ] : List Lesson)[1]?
    ∧ (markComplete [c6LessonX, c6LessonY, c6LessonZ] c6LessonY.title "abc123")[2]?
        = ([c6LessonX, c6LessonY, c6LessonZ] : List Lesson)[2]? :=
  ⟨by decide,
    (c6_first_title_match [c6LessonX, c6LessonY, c6LessonZ] c6LessonY "abc123" (by decide)).1,
    (c6_first_title_match [c6LessonX, c6LessonY, c6LessonZ] c6LessonY "abc123" (by decide)).2.1,
    (c6_first_title_match [c6LessonX, c6LessonY, c6LessonZ] c6LessonY "abc123" (by decide)).2.2
      1 (by decide),
    (c6_first_title_match [c6LessonX, c6LessonY, c6LessonZ] c6LessonY "abc123" (by decide)).2.2
      2 (by decide)⟩

/-- Claim C3, counterexample: the claim as stated fails.  `generate_curriculum`
returns whatever document the model's response parses to — here a plan with
zero lessons (the response `{"lessons": []}` under Python's `json.loads`
behaviour on that exact text) — which is not a 20-lesson all-pending plan. -/
theorem c3_curriculum_counterexample :
    generate_curriculum none (some "key") (fun _ => Except.ok "\x7b\"lessons\": []\x7d") cexLoads
      = Except.ok (JValue.obj [("lessons", JValue.arr [])])
    ∧ is20PendingPlan (JValue.obj [("lessons", JValue.arr [])]) = false :=
  ⟨rfl, rfl⟩

/-- Claim C3, amended: `generate_curriculum` (with or without
`previous_titles`) returns the model's response text, fence-stripped and
JSON-parsed, unchanged and unvalidated; the returned plan consists of exactly
20 lessons, each pending with null `youtube_id`, exactly when the parsed
response does.  The same holds for the orchestrator's regeneration, which is
this very call. -/
theorem c3_curriculum_unvalidated (previous_titles : Option (List String)) (key : String)
    (model : String → Except Unit String) (loads : String → Option JValue)
    (text : String) (v : JValue)
    (hm : model (curriculumPrompt previous_titles) = Except.ok text)
    (hl : loads (stripCodeFences text) = some v)
    (h20 : is20PendingPlan v = true) :
    generate_curriculum previous_titles (some key) model loads = Except.ok v
    ∧ is20PendingPlan v = true := by
  refine ⟨?_, h20⟩
  simp [generate_curriculum, hm, hl]

/-- Witness for the amended C3: a model response parsing to the concrete
20-lesson all-pending plan `wfPlan` is returned as such. -/
theorem c3_curriculum_unvalidated_witness :
    (fun _ : String => (Except.ok "resp" : Except Unit String)) (curriculumPrompt none)
      = Except.ok "resp"
    ∧ (fun _ : String => some wfPlan) (stripCodeFences "resp") = some wfPlan
    ∧ is20PendingPlan wfPlan = true
    ∧ (generate_curriculum none (some "key") (fun _ => Except.ok "resp") (fun _ => some wfPlan)
        = Except.ok wfPlan
       ∧ is20PendingPlan wfPlan = true) :=
  ⟨rfl, rfl, by decide,
    c3_curriculum_unvalidated none "key" (fun _ => Except.ok "resp") (fun _ => some wfPlan)
      "resp" wfPlan rfl rfl (by decide)⟩
